import Mathlib

/-
  Shallow embedding of src/socket.c (lua-eco core socket module).

  Conventions:
  * Lua results are modelled by `LuaRet`: `ok v` stands for a success return,
    `fail e` for the `nil/false` plus error-value convention, and
    `argError m` for a `luaL_argerror` raise.
  * Kernel behaviour is a parameter: a single syscall outcome is a `KRes`
    (`ok v` or `fail errno`), and an operation wrapped in the EINTR retry loop
    receives a list of successive outcomes.  An empty remaining list means the
    loop is still retrying, hence `Option` results for looping operations.
  * Each operation also returns the list of syscalls it issued, so that
    "no syscall is attempted" and "flags folded into the creating call"
    are statable.
  * Machine integers are Nat with explicit `% 2 ^ 32` where the C assigns into
    a 32-bit field; byte strings are `List Nat`.
-/

set_option autoImplicit false

namespace EcoSocket

/-- Linux AF_INET. -/
def AF_INET : Nat := 2
/-- Linux AF_INET6. -/
def AF_INET6 : Nat := 10
/-- Linux AF_UNIX. -/
def AF_UNIX : Nat := 1
/-- Linux AF_NETLINK. -/
def AF_NETLINK : Nat := 16
/-- Linux errno EINTR. -/
def EINTR : Nat := 4
/-- Linux errno EPIPE. -/
def EPIPE : Nat := 32
/-- Linux errno EINPROGRESS. -/
def EINPROGRESS : Nat := 115
/-- Linux SOCK_NONBLOCK = 0o4000 = 2 ^ 11. -/
def SOCK_NONBLOCK : Nat := 2048
/-- Linux SOCK_CLOEXEC = 0o2000000 = 2 ^ 19. -/
def SOCK_CLOEXEC : Nat := 524288
/-- sizeof(((struct sockaddr_un) 0).sun_path) on Linux. -/
def SUN_PATH_SIZE : Nat := 108

/-- Error value pushed as the secondary return of a failing operation.
`num e` models `lua_pushinteger(L, errno)`; `msg e` models
`lua_pushstring(L, strerror(errno))`, a platform message string determined by
the errno `e`; `closed` models `lua_pushliteral(L, "closed")`.  The three
constructors are distinct because an integer, a strerror message and the
literal string are distinguishable Lua values. -/
inductive ErrVal where
  | num (e : Nat)
  | msg (e : Nat)
  | closed
deriving DecidableEq, Repr

/-- Result of a Lua-facing operation: a success payload, a `nil`-plus-error
pair, or a raised `luaL_argerror`. -/
inductive LuaRet (α : Type) where
  | ok (v : α)
  | fail (err : ErrVal)
  | argError (m : String)
deriving DecidableEq, Repr

/-- Outcome of one kernel call: a value or an errno. -/
inductive KRes (α : Type) where
  | ok (v : α)
  | fail (e : Nat)
deriving DecidableEq, Repr

/-- Wire-level socket address, mirroring the C `struct sockaddr_*` family
union.  `in4`/`in6` keep the port in network byte order (as stored in
`sin_port`/`sin6_port`) and the address as its binary value (the image of
`inet_pton`).  `un` keeps the whole 108-byte `sun_path` buffer.  `nl` keeps
`nl_pid` and `nl_groups` (both `__u32`).  `other` covers unrecognized
families, of which only the family field is ever read. -/
inductive Sockaddr where
  | in4 (sin_port : Nat) (sin_addr : Nat)
  | in6 (sin6_port : Nat) (sin6_addr : Nat)
  | un (sun_path : List Nat)
  | nl (nl_pid : Nat) (nl_groups : Nat)
  | other (family : Nat)
deriving DecidableEq, Repr

/-- The `sa_family` field of a wire address. -/
def Sockaddr.family : Sockaddr → Nat
  | .in4 _ _ => AF_INET
  | .in6 _ _ => AF_INET6
  | .un _ => AF_UNIX
  | .nl _ _ => AF_NETLINK
  | .other f => f

/-- The Lua table built by `push_socket_addr`: a mandatory `family` field and
family-conditional fields.  The decoded `ipaddr` is recorded by its binary
value (the C pushes `inet_ntop` of it, an injective presentation).  Note the
structure has no `groups` field: `push_socket_addr` never pushes one. -/
structure AddrTable where
  family : Nat
  pid : Option Nat := none
  path : Option (List Nat) := none
  port : Option Nat := none
  ipaddr : Option Nat := none
deriving DecidableEq, Repr

/-- 16-bit host-to-network byte swap, applied to the low 16 bits of `p`
(the `uint16_t` conversion C performs on the argument). -/
def htons (p : Nat) : Nat := p % 256 * 256 + p / 256 % 256

/-- 16-bit network-to-host byte swap; same permutation as `htons`. -/
def ntohs (p : Nat) : Nat := htons p

/-- C `strlen` on a byte buffer: number of bytes before the first NUL. -/
def strlen (s : List Nat) : Nat := (s.takeWhile (fun b => b != 0)).length

/-- `push_socket_addr` (src/socket.c lines 24-58): builds the Lua address
table from a wire address and its length.  The source tests `sa_family`
through a chain of `if`s (the missing `else` before the `AF_UNIX` test is
behaviourally an `else if`, the family values being mutually exclusive); in
the embedding the family tag and the variant coincide, so we match on the
variant.  For `AF_UNIX` the path is the first `len - 2` bytes of `sun_path`
(`len` is at least 2 for every address this module ever builds or receives,
`offsetof(struct sockaddr_un, sun_path)` being 2). -/
def push_socket_addr : Sockaddr → Nat → AddrTable
  | .nl pid _, _ => { family := AF_NETLINK, pid := some pid }
  | .un p, len => { family := AF_UNIX, path := some (p.take (len - 2)) }
  | .in4 port ip, _ => { family := AF_INET, port := some (ntohs port), ipaddr := some ip }
  | .in6 port ip, _ => { family := AF_INET6, port := some (ntohs port), ipaddr := some ip }
  | .other f, _ => { family := f }

/-- Address construction of `eco_socket_bind` / `eco_socket_connect` /
`eco_socket_sendto`: `sin_family = AF_INET`, `sin_port = htons(port)`,
`sin_addr` filled by `inet_pton` from the textual ip.  We model the address
by its 32-bit binary value, the image of `inet_pton` (the spec data model
likewise has `Inet{ip: 32-bit value}`).  Second component: the
`sizeof(struct sockaddr_in)` passed as addrlen. -/
def encode_inet (ip port : Nat) : Sockaddr × Nat :=
  (.in4 (htons port) ip, 16)

/-- Address construction of the `*6` entry points, with the 128-bit binary
value of the textual ip and `sizeof(struct sockaddr_in6)`. -/
def encode_inet6 (ip port : Nat) : Sockaddr × Nat :=
  (.in6 (htons port) ip, 28)

/-- Address construction of `eco_socket_bind_unix` / `eco_socket_connect_unix`
(src/socket.c lines 122-136, 237-251): if `strlen(path) >= sizeof(sun_path)`
the function raises `luaL_argerror` (modelled by `none`); otherwise the path
is `strcpy`ed into the zero-initialized buffer and the addrlen is
`SUN_LEN(&addr) = offsetof(sun_path) + strlen(addr.sun_path) = 2 + strlen`.
`path` stands for the C string, hence contains no NUL byte. -/
def encode_unix (path : List Nat) : Option (Sockaddr × Nat) :=
  if SUN_PATH_SIZE ≤ path.length then none
  else
    let buf := path ++ List.replicate (SUN_PATH_SIZE - path.length) 0
    some (.un buf, 2 + strlen buf)

/-- Address construction of `eco_socket_bind_nl` (src/socket.c lines 138-148):
`nl_family = AF_NETLINK`, `nl_groups` and `nl_pid` from the arguments
(assignment into `__u32` fields truncates mod `2 ^ 32`), addrlen
`sizeof(struct sockaddr_nl)`. -/
def encode_nl (groups pid : Nat) : Sockaddr × Nat :=
  (.nl (pid % 2 ^ 32) (groups % 2 ^ 32), 12)

/-- A system call issued by the module.  `sys_fcntl` is never issued by any
modelled operation; its presence makes "the flags are never set by a separate
later call" a statable property of the traces. -/
inductive Syscall where
  | sys_socket (domain stype protocol : Nat)
  | sys_bind (fd : Nat) (addr : Sockaddr) (addrlen : Nat)
  | sys_listen (fd backlog : Nat)
  | sys_accept4 (lfd flags : Nat)
  | sys_connect (fd : Nat) (addr : Sockaddr) (addrlen : Nat)
  | sys_send (fd len flags : Nat)
  | sys_sendto (fd len : Nat) (addr : Sockaddr) (addrlen flags : Nat)
  | sys_recv (fd n flags : Nat)
  | sys_recvfrom (fd n flags : Nat)
  | sys_getsockopt (fd level oname : Nat)
  | sys_setsockopt (fd level oname : Nat)
  | sys_fcntl (fd cmd : Nat)
deriving DecidableEq, Repr

/-- The `again:` / `goto again` retry skeleton shared by `eco_socket_accept`,
`eco_socket_send`, `eco_socket_recv`, `eco_socket_sendto_common` and
`eco_socket_recvfrom`: issue `call`; on errno `EINTR` retry immediately with
the next kernel outcome; on any other errno return `fErr errno`; on success
return `fOk v`.  The kernel outcomes come as a list; `none` means the list
was exhausted while still retrying. -/
def eintr_loop {α β : Type} (call : Syscall) (fOk : α → β) (fErr : Nat → β) :
    List (KRes α) → Option β × List Syscall
  | [] => (none, [])
  | KRes.ok v :: _ => (some (fOk v), [call])
  | KRes.fail e :: rest =>
    if e = EINTR then
      let p := eintr_loop call fOk fErr rest
      (p.1, call :: p.2)
    else (some (fErr e), [call])

/-- `eco_socket_socket` (src/socket.c lines 60-76): one `socket` call with
`SOCK_NONBLOCK | SOCK_CLOEXEC` or-ed into the type argument; on failure
returns `nil` plus the errno as an integer. -/
def eco_socket_socket (domain stype protocol : Nat) (k : KRes Nat) :
    LuaRet Nat × List Syscall :=
  (match k with
   | .ok fd => .ok fd
   | .fail e => .fail (.num e),
   [Syscall.sys_socket domain (stype ||| SOCK_NONBLOCK ||| SOCK_CLOEXEC) protocol])

/-- `eco_socket_bind_common` (src/socket.c lines 78-88): one `bind` call; on
failure returns `false` plus the errno as an integer. -/
def eco_socket_bind_common (fd : Nat) (addr : Sockaddr) (addrlen : Nat) (k : KRes Unit) :
    LuaRet Unit × List Syscall :=
  (match k with
   | .ok _ => .ok ()
   | .fail e => .fail (.num e),
   [Syscall.sys_bind fd addr addrlen])

/-- `eco_socket_bind_unix` (src/socket.c lines 122-136): path-length guard and
`luaL_argerror` before any syscall, else `bind` with the encoded address. -/
def eco_socket_bind_unix (fd : Nat) (path : List Nat) (k : KRes Unit) :
    LuaRet Unit × List Syscall :=
  match encode_unix path with
  | none => (.argError "path too long", [])
  | some al => eco_socket_bind_common fd al.1 al.2 k

/-- `eco_socket_bind_nl` (src/socket.c lines 138-148). -/
def eco_socket_bind_nl (fd groups pid : Nat) (k : KRes Unit) :
    LuaRet Unit × List Syscall :=
  eco_socket_bind_common fd (encode_nl groups pid).1 (encode_nl groups pid).2 k

/-- `eco_socket_listen` (src/socket.c lines 150-163): one `listen` call with
the given backlog (which `luaL_optinteger` defaults to SOMAXCONN when
absent); failure returns `false` plus the errno as an integer. -/
def eco_socket_listen (fd backlog : Nat) (k : KRes Unit) :
    LuaRet Unit × List Syscall :=
  (match k with
   | .ok _ => .ok ()
   | .fail e => .fail (.num e),
   [Syscall.sys_listen fd backlog])

/-- `eco_socket_connect_common` (src/socket.c lines 193-203): one `connect`
call; every failure, the in-progress condition included, returns `false` plus
the errno as an integer — there is no separate pending outcome. -/
def eco_socket_connect_common (fd : Nat) (addr : Sockaddr) (addrlen : Nat) (k : KRes Unit) :
    LuaRet Unit × List Syscall :=
  (match k with
   | .ok _ => .ok ()
   | .fail e => .fail (.num e),
   [Syscall.sys_connect fd addr addrlen])

/-- `eco_socket_connect_unix` (src/socket.c lines 237-251): same path guard as
`eco_socket_bind_unix`, then `connect`. -/
def eco_socket_connect_unix (fd : Nat) (path : List Nat) (k : KRes Unit) :
    LuaRet Unit × List Syscall :=
  match encode_unix path with
  | none => (.argError "path too long", [])
  | some al => eco_socket_connect_common fd al.1 al.2 k

/-- The `SOCK_NONBLOCK | SOCK_CLOEXEC` flags argument of `accept4`. -/
def accept4_flags : Nat := SOCK_NONBLOCK ||| SOCK_CLOEXEC

/-- `eco_socket_accept` (src/socket.c lines 165-191): `accept4` with
`SOCK_NONBLOCK | SOCK_CLOEXEC`, retried on EINTR; on success returns the new
fd and the decoded peer address; on other failure `nil` plus the errno as an
integer.  A kernel success carries (fd, wire address, addrlen). -/
def eco_socket_accept (lfd : Nat) (tr : List (KRes (Nat × Sockaddr × Nat))) :
    Option (LuaRet (Nat × AddrTable)) × List Syscall :=
  eintr_loop (Syscall.sys_accept4 lfd accept4_flags)
    (fun r => .ok (r.1, push_socket_addr r.2.1 r.2.2))
    (fun e => .fail (.num e)) tr

/-- `eco_socket_send` (src/socket.c lines 265-288): `send` retried on EINTR;
on other failure `nil` plus `"closed"` if the errno is EPIPE, else the
`strerror` message. -/
def eco_socket_send (fd : Nat) (data : List Nat) (flags : Nat) (tr : List (KRes Nat)) :
    Option (LuaRet Nat) × List Syscall :=
  eintr_loop (Syscall.sys_send fd data.length flags)
    (fun ret => .ok ret)
    (fun e => .fail (if e = EPIPE then .closed else .msg e)) tr

/-- `eco_socket_sendto_common` (src/socket.c lines 325-342): `sendto` retried
on EINTR; every other failure, EPIPE included, yields `nil` plus the
`strerror` message — no `"closed"` normalization here. -/
def eco_socket_sendto_common (fd : Nat) (data : List Nat) (addr : Sockaddr)
    (addrlen flags : Nat) (tr : List (KRes Nat)) :
    Option (LuaRet Nat) × List Syscall :=
  eintr_loop (Syscall.sys_sendto fd data.length addr addrlen flags)
    (fun ret => .ok ret)
    (fun e => .fail (.msg e)) tr

/-- `eco_socket_recv` (src/socket.c lines 290-323): `n < 1` raises
`luaL_argerror` before `malloc` and before any syscall; a failed `malloc`
(modelled by `malloc = fail errno`) returns `nil` plus the `strerror`
message without a syscall; otherwise `recv` into a buffer of exactly `n`
bytes, retried on EINTR, the success pushing exactly the `ret` bytes read.
A kernel success carries the bytes the kernel wrote (its length is the
syscall return `ret`). -/
def eco_socket_recv (fd n flags : Nat) (malloc : KRes Unit)
    (tr : List (KRes (List Nat))) :
    Option (LuaRet (List Nat)) × List Syscall :=
  if n < 1 then (some (.argError "must be greater than 0"), [])
  else match malloc with
  | .fail e => (some (.fail (.msg e)), [])
  | .ok _ =>
    eintr_loop (Syscall.sys_recv fd n flags)
      (fun data => .ok data)
      (fun e => .fail (.msg e)) tr

/-- `eco_socket_recvfrom` (src/socket.c lines 416-461): same guards as
`eco_socket_recv`; `recvfrom` retried on EINTR; a kernel success carries
(bytes, wire source address, addrlen); the source address table is returned
only when the addrlen is non-zero. -/
def eco_socket_recvfrom (fd n flags : Nat) (malloc : KRes Unit)
    (tr : List (KRes (List Nat × Sockaddr × Nat))) :
    Option (LuaRet (List Nat × Option AddrTable)) × List Syscall :=
  if n < 1 then (some (.argError "must be greater than 0"), [])
  else match malloc with
  | .fail e => (some (.fail (.msg e)), [])
  | .ok _ =>
    eintr_loop (Syscall.sys_recvfrom fd n flags)
      (fun r => .ok (r.1, if r.2.2 ≠ 0 then some (push_socket_addr r.2.1 r.2.2) else none))
      (fun e => .fail (.msg e)) tr

/-- A Lua value passed as the third argument of `setoption`. -/
inductive LuaValue where
  | nil
  | boolean (b : Bool)
  | integer (n : Int)
  | str (s : String)
deriving DecidableEq, Repr

/-- The value returned by a `getoption` handler: a boolean or an integer. -/
inductive OptValue where
  | b (v : Bool)
  | i (v : Int)
deriving DecidableEq, Repr

/-- `opt_getboolean` (src/socket.c lines 505-518): `getsockopt` into a 4-byte
int, pushed as a boolean (non-zero is true); failure yields `nil` plus the
`strerror` message. -/
def opt_getboolean (fd level oname : Nat) (k : KRes Int) :
    LuaRet OptValue × List Syscall :=
  (match k with
   | .ok v => .ok (.b (v != 0))
   | .fail e => .fail (.msg e),
   [Syscall.sys_getsockopt fd level oname])

/-- `opt_get_error` (src/socket.c lines 525-536): `getsockopt(SOL_SOCKET,
SO_ERROR)`; on failure of the query itself the errno replaces the value; an
integer is always returned. -/
def opt_get_error (fd : Nat) (k : KRes Int) : LuaRet OptValue × List Syscall :=
  (match k with
   | .ok v => .ok (.i v)
   | .fail e => .ok (.i e),
   [Syscall.sys_getsockopt fd 1 4])

/-- The `optget` table (src/socket.c lines 538-542): SOL_SOCKET = 1,
SO_REUSEADDR = 2. -/
def optget : List (String × (Nat → KRes Int → LuaRet OptValue × List Syscall)) :=
  [("reuseaddr", fun fd => opt_getboolean fd 1 2),
   ("error", opt_get_error)]

/-- The message built by `sprintf(msg, "unsupported option \x27%.35s\x27",
name)`: the option name truncated to 35 bytes (String.take truncates
characters; the two coincide on ASCII names). -/
def unsupported_option_msg (oname : String) : String :=
  "unsupported option \x27" ++ oname.take 35 ++ "\x27"

/-- `eco_socket_getoption` (src/socket.c lines 544-560): linear scan of
`optget` by `strcmp` equality; an unmatched name raises `luaL_argerror` with
the truncated-name message before any syscall. -/
def eco_socket_getoption (fd : Nat) (oname : String) (k : KRes Int) :
    LuaRet OptValue × List Syscall :=
  match optget.find? (fun p => p.1 == oname) with
  | some p => p.2 fd k
  | none => (.argError (unsupported_option_msg oname), [])

/-- `opt_set` (src/socket.c lines 562-572): one `setsockopt`; failure yields
`false` plus the `strerror` message. -/
def opt_set (fd level oname : Nat) (k : KRes Unit) : LuaRet Unit × List Syscall :=
  (match k with
   | .ok _ => .ok ()
   | .fail e => .fail (.msg e),
   [Syscall.sys_setsockopt fd level oname])

/-- `opt_setboolean` (src/socket.c lines 574-583): `luaL_checktype(L, 3,
LUA_TBOOLEAN)` raises unless the value is strictly a boolean. -/
def opt_setboolean (fd level oname : Nat) (v : LuaValue) (k : KRes Unit) :
    LuaRet Unit × List Syscall :=
  match v with
  | .boolean _ => opt_set fd level oname k
  | _ => (.argError "boolean expected", [])

/-- `opt_setint` (src/socket.c lines 585-589): `luaL_checkinteger` raises
unless the value is an integer. -/
def opt_setint (fd level oname : Nat) (v : LuaValue) (k : KRes Unit) :
    LuaRet Unit × List Syscall :=
  match v with
  | .integer _ => opt_set fd level oname k
  | _ => (.argError "number expected", [])

/-- `opt_set_bindtodevice` (src/socket.c lines 636-647): the interface name
must be a string shorter than IFNAMSIZ = 16, else `luaL_argerror`; then
`setsockopt(SOL_SOCKET, SO_BINDTODEVICE)` with SO_BINDTODEVICE = 25. -/
def opt_set_bindtodevice (fd : Nat) (v : LuaValue) (k : KRes Unit) :
    LuaRet Unit × List Syscall :=
  match v with
  | .str ifname =>
    if 16 ≤ ifname.length then (.argError "ifname too long", [])
    else opt_set fd 1 25 k
  | _ => (.argError "string expected", [])

/-- The `optset` table (src/socket.c lines 659-673) with the Linux constants:
SOL_SOCKET = 1 (SO_REUSEADDR 2, SO_REUSEPORT 15, SO_KEEPALIVE 9), SOL_TCP = 6
(TCP_KEEPIDLE 4, TCP_KEEPINTVL 5, TCP_KEEPCNT 6, TCP_FASTOPEN 23,
TCP_NODELAY 1), IPPROTO_IPV6 = 41 (IPV6_V6ONLY 26), SOL_NETLINK = 270
(NETLINK_ADD_MEMBERSHIP 1, NETLINK_DROP_MEMBERSHIP 2). -/
def optset : List (String × (Nat → LuaValue → KRes Unit → LuaRet Unit × List Syscall)) :=
  [("reuseaddr", fun fd => opt_setboolean fd 1 2),
   ("reuseport", fun fd => opt_setboolean fd 1 15),
   ("keepalive", fun fd => opt_setboolean fd 1 9),
   ("tcp_keepidle", fun fd => opt_setint fd 6 4),
   ("tcp_keepintvl", fun fd => opt_setint fd 6 5),
   ("tcp_keepcnt", fun fd => opt_setint fd 6 6),
   ("tcp_fastopen", fun fd => opt_setint fd 6 23),
   ("tcp_nodelay", fun fd => opt_setboolean fd 6 1),
   ("ipv6_v6only", fun fd => opt_setboolean fd 41 26),
   ("bindtodevice", opt_set_bindtodevice),
   ("netlink_add_membership", fun fd => opt_setint fd 270 1),
   ("netlink_drop_membership", fun fd => opt_setint fd 270 2)]

/-- `eco_socket_setoption` (src/socket.c lines 675-691): same linear scan and
unsupported-name `luaL_argerror` as `eco_socket_getoption`. -/
def eco_socket_setoption (fd : Nat) (oname : String) (v : LuaValue) (k : KRes Unit) :
    LuaRet Unit × List Syscall :=
  match optset.find? (fun p => p.1 == oname) with
  | some p => p.2 fd v k
  | none => (.argError (unsupported_option_msg oname), [])

/-- `eco_socket_if_nametoindex` (src/socket.c lines 760-771): the platform
lookup returns 0 for a nonexistent name, which the binding surfaces as `nil`
(absence), never as index 0. -/
def eco_socket_if_nametoindex (plat : String → Nat) (ifname : String) : Option Nat :=
  if plat ifname = 0 then none else some (plat ifname)

/-- `eco_socket_if_indextoname` (src/socket.c lines 773-782): the buffer is
initialized to the empty string; `if_indextoname` fills it on success and
on failure returns NULL leaving the buffer untouched — the return value is
never checked, so a failed lookup pushes the empty string. -/
def eco_socket_if_indextoname (plat : Nat → Option String) (index : Nat) : String :=
  match plat index with
  | some ifname => ifname
  | none => ""

/-! Helper lemmas about the retry skeleton and the codec. -/

/-- One EINTR outcome at the head of the kernel trace does not change the
result: the loop retries. -/
theorem eintr_loop_skip {α β : Type} (call : Syscall) (fOk : α → β) (fErr : Nat → β)
    (tr : List (KRes α)) :
    (eintr_loop call fOk fErr (KRes.fail EINTR :: tr)).1 =
      (eintr_loop call fOk fErr tr).1 := by
  simp [eintr_loop]

/-- Any number of leading EINTR outcomes is transparently skipped. -/
theorem eintr_loop_skip_many {α β : Type} (call : Syscall) (fOk : α → β) (fErr : Nat → β)
    (k : Nat) (tr : List (KRes α)) :
    (eintr_loop call fOk fErr (List.replicate k (KRes.fail EINTR) ++ tr)).1 =
      (eintr_loop call fOk fErr tr).1 := by
  induction k with
  | zero => simp
  | succ m ih =>
    rw [List.replicate_succ, List.cons_append, eintr_loop_skip]
    exact ih

/-- Every result the loop produces comes from a kernel success or from a
non-EINTR errno. -/
theorem eintr_loop_result {α β : Type} (call : Syscall) (fOk : α → β) (fErr : Nat → β)
    (tr : List (KRes α)) (b : β)
    (h : (eintr_loop call fOk fErr tr).1 = some b) :
    (∃ v, b = fOk v) ∨ ∃ e, e ≠ EINTR ∧ b = fErr e := by
  induction tr with
  | nil => simp [eintr_loop] at h
  | cons hd rest ih =>
    cases hd with
    | ok v =>
      simp [eintr_loop] at h
      exact Or.inl ⟨v, h.symm⟩
    | fail e =>
      by_cases he : e = EINTR
      · subst he
        rw [eintr_loop_skip] at h
        exact ih h
      · simp [eintr_loop, he] at h
        exact Or.inr ⟨e, he, h.symm⟩

/-- The loop issues no syscall other than the one it retries. -/
theorem eintr_loop_calls {α β : Type} (call : Syscall) (fOk : α → β) (fErr : Nat → β)
    (tr : List (KRes α)) :
    ∀ c ∈ (eintr_loop call fOk fErr tr).2, c = call := by
  induction tr with
  | nil => simp [eintr_loop]
  | cons hd rest ih =>
    cases hd with
    | ok v => simp [eintr_loop]
    | fail e =>
      by_cases he : e = EINTR
      · subst he
        intro c hc
        simp only [eintr_loop, if_pos rfl] at hc
        rcases List.mem_cons.mp hc with h1 | h1
        · exact h1
        · exact ih c h1
      · simp [eintr_loop, he]

/-- A non-EINTR errno at the head of the trace is handled at once. -/
theorem eintr_loop_fail {α β : Type} (call : Syscall) (fOk : α → β) (fErr : Nat → β)
    (e : Nat) (he : e ≠ EINTR) (tr : List (KRes α)) :
    eintr_loop call fOk fErr (KRes.fail e :: tr) = (some (fErr e), [call]) := by
  simp [eintr_loop, he]

/-- `ntohs` inverts `htons` on 16-bit values. -/
theorem ntohs_htons (p : Nat) (hp : p < 65536) : ntohs (htons p) = p := by
  simp only [ntohs, htons]
  have hb : p / 256 < 256 := by omega
  have h1 : p / 256 % 256 = p / 256 := Nat.mod_eq_of_lt hb
  rw [h1]
  have h2 : (p % 256 * 256 + p / 256) % 256 = p / 256 := by omega
  have h3 : (p % 256 * 256 + p / 256) / 256 = p % 256 := by omega
  rw [h2, h3]
  omega

/-- `strlen` of a NUL-free byte list padded with at least one trailing zero
is the length of the list. -/
theorem strlen_append_zeros (path : List Nat) (k : Nat) (hk : 0 < k)
    (h : ∀ b ∈ path, b ≠ 0) :
    strlen (path ++ List.replicate k 0) = path.length := by
  induction path with
  | nil =>
    cases k with
    | zero => omega
    | succ m => simp [strlen, List.replicate_succ, List.takeWhile]
  | cons a t ih =>
    have ha : a ≠ 0 := h a (List.mem_cons_self a t)
    have hab : (a != 0) = true := by simpa using ha
    have ht : ∀ b ∈ t, b ≠ 0 := fun b hb => h b (List.mem_cons_of_mem a hb)
    simp only [List.cons_append, strlen, List.takeWhile_cons, hab, if_true,
      List.length_cons]
    have := ih ht
    simp only [strlen] at this
    omega

/-- Taking back exactly the first component of an append. -/
theorem take_append_length {α : Type} (l1 l2 : List α) :
    (l1 ++ l2).take l1.length = l1 := by
  induction l1 with
  | nil => simp
  | cons a t ih => simp [ih]

/-- What `encode_unix` produces on a NUL-free path short enough to fit. -/
theorem encode_unix_eq (path : List Nat) (hlen : path.length < SUN_PATH_SIZE)
    (hz : ∀ b ∈ path, b ≠ 0) :
    encode_unix path =
      some (.un (path ++ List.replicate (SUN_PATH_SIZE - path.length) 0),
            2 + path.length) := by
  have hs : strlen (path ++ List.replicate (SUN_PATH_SIZE - path.length) 0) = path.length :=
    strlen_append_zeros path _ (by omega) hz
  simp only [encode_unix, if_neg (by omega : ¬ SUN_PATH_SIZE ≤ path.length), hs]

/-! Claim theorems. -/

/-- Claim C1, counterexample: the netlink `groups` bitmask does not survive
the round-trip.  Two netlink logical addresses that differ only in `groups`
(5 versus 0, both with pid 7) encode to wire addresses that decode to the
same table, so decoding cannot return the original groups bitmask. -/
theorem C1_counterexample :
    push_socket_addr (encode_nl 5 7).1 (encode_nl 5 7).2 =
      push_socket_addr (encode_nl 0 7).1 (encode_nl 0 7).2 ∧ (5 : Nat) ≠ 0 := by
  decide

/-- Claim C1 (amended): encoding then decoding restores an Inet address
(binary ip and 16-bit port), an Inet6 address, and a Unix address of any
encodable NUL-free path; for a Netlink address the pid survives but the
decoded table carries only the family and the pid — `push_socket_addr`
never decodes the groups bitmask. -/
theorem C1_roundtrip (ip port ip6 port6 groups pid : Nat) (path : List Nat)
    (hport : port < 65536) (hport6 : port6 < 65536) (hpid : pid < 2 ^ 32)
    (hplen : path.length < SUN_PATH_SIZE) (hz : ∀ b ∈ path, b ≠ 0) :
    push_socket_addr (encode_inet ip port).1 (encode_inet ip port).2 =
      { family := AF_INET, port := some port, ipaddr := some ip }
  ∧ push_socket_addr (encode_inet6 ip6 port6).1 (encode_inet6 ip6 port6).2 =
      { family := AF_INET6, port := some port6, ipaddr := some ip6 }
  ∧ (∃ a l, encode_unix path = some (a, l) ∧
      push_socket_addr a l = { family := AF_UNIX, path := some path })
  ∧ push_socket_addr (encode_nl groups pid).1 (encode_nl groups pid).2 =
      { family := AF_NETLINK, pid := some pid } := by
  refine ⟨?_, ?_, ?_, ?_⟩
  · simp [encode_inet, push_socket_addr, ntohs_htons port hport]
  · simp [encode_inet6, push_socket_addr, ntohs_htons port6 hport6]
  · refine ⟨_, _, encode_unix_eq path hplen hz, ?_⟩
    simp only [push_socket_addr, Nat.add_sub_cancel_left, take_append_length]
  · simp only [encode_nl, push_socket_addr]
    rw [Nat.mod_eq_of_lt hpid]

/-- Witness for C1_roundtrip at concrete inputs: ip 127.0.0.1 port 80,
an ip6 value with port 443, the path "/tmp", netlink groups 5 pid 9. -/
theorem C1_roundtrip_witness :
    (80 : Nat) < 65536 ∧ (443 : Nat) < 65536 ∧ (9 : Nat) < 2 ^ 32 ∧
    ([47, 116, 109, 112] : List Nat).length < SUN_PATH_SIZE ∧
    (∀ b ∈ ([47, 116, 109, 112] : List Nat), b ≠ 0) ∧
    (push_socket_addr (encode_inet 2130706433 80).1 (encode_inet 2130706433 80).2 =
        { family := AF_INET, port := some 80, ipaddr := some 2130706433 }
      ∧ push_socket_addr (encode_inet6 1 443).1 (encode_inet6 1 443).2 =
        { family := AF_INET6, port := some 443, ipaddr := some 1 }
      ∧ (∃ a l, encode_unix [47, 116, 109, 112] = some (a, l) ∧
          push_socket_addr a l = { family := AF_UNIX, path := some [47, 116, 109, 112] })
      ∧ push_socket_addr (encode_nl 5 9).1 (encode_nl 5 9).2 =
        { family := AF_NETLINK, pid := some 9 }) :=
  ⟨by decide, by decide, by decide, by decide, by decide,
   C1_roundtrip 2130706433 80 1 443 5 9 [47, 116, 109, 112]
     (by decide) (by decide) (by decide) (by decide) (by decide)⟩

/-- Claim C7: a UNIX path of length 107 (the platform maximum 108 minus one)
passes the guard and is handed to the syscall, for bind and connect alike;
a path of length 108 raises the path-too-long argument error with an empty
syscall trace, i.e. before any system call. -/
theorem C7_unix_path_bounds (fd : Nat) (path : List Nat) (k : KRes Unit)
    (hz : ∀ b ∈ path, b ≠ 0) :
    (path.length = 107 →
      eco_socket_bind_unix fd path k =
        eco_socket_bind_common fd (Sockaddr.un (path ++ [0])) 109 k ∧
      eco_socket_connect_unix fd path k =
        eco_socket_connect_common fd (Sockaddr.un (path ++ [0])) 109 k)
  ∧ (path.length = 108 →
      eco_socket_bind_unix fd path k = (.argError "path too long", []) ∧
      eco_socket_connect_unix fd path k = (.argError "path too long", [])) := by
  constructor
  · intro h107
    have henc := encode_unix_eq path (by rw [h107]; decide) hz
    rw [h107] at henc
    have hrep : SUN_PATH_SIZE - 107 = 1 := by decide
    rw [hrep, List.replicate_one] at henc
    constructor
    · simp only [eco_socket_bind_unix, henc]
    · simp only [eco_socket_connect_unix, henc]
  · intro h108
    have henc : encode_unix path = none := by
      simp [encode_unix, h108, SUN_PATH_SIZE]
    constructor
    · simp only [eco_socket_bind_unix, henc]
    · simp only [eco_socket_connect_unix, henc]

/-- Witness for C7_unix_path_bounds: a path of 107 slash bytes reaches the
bind syscall; a path of 108 slash bytes is rejected with no syscall. -/
theorem C7_witness :
    (eco_socket_bind_unix 3 (List.replicate 107 47) (KRes.ok ()) =
      eco_socket_bind_common 3 (Sockaddr.un (List.replicate 107 47 ++ [0])) 109 (KRes.ok ()))
  ∧ (eco_socket_bind_unix 3 (List.replicate 108 47) (KRes.ok ()) =
      (LuaRet.argError "path too long", [])) :=
  ⟨((C7_unix_path_bounds 3 (List.replicate 107 47) (KRes.ok ())
      (fun b hb => by rw [List.eq_of_mem_replicate hb]; norm_num)).1 (by simp)).1,
   ((C7_unix_path_bounds 3 (List.replicate 108 47) (KRes.ok ())
      (fun b hb => by rw [List.eq_of_mem_replicate hb]; norm_num)).2 (by simp)).1⟩

/-- Claim C2, counterexample: `eco_socket_sendto_common` does not normalize a
broken pipe.  A sendto failing with EPIPE reports the `strerror` message
value, which is not the literal string `"closed"`. -/
theorem C2_counterexample :
    (eco_socket_sendto_common 3 [104, 105] (encode_nl 0 0).1 12 0 [KRes.fail EPIPE]).1 =
      some (LuaRet.fail (ErrVal.msg EPIPE))
  ∧ ErrVal.msg EPIPE ≠ ErrVal.closed := by
  decide

/-- Claim C2 (amended): `send` reports an EPIPE failure as the single stable
string `"closed"`, distinct from every strerror message and from every
integer errno report; `send_to`, however, reports EPIPE through the generic
strerror path like any other error. -/
theorem C2_epipe_closed (fd : Nat) (data : List Nat) (flags : Nat) (addr : Sockaddr)
    (addrlen : Nat) (tr : List (KRes Nat)) (e : Nat)
    (he4 : e ≠ EINTR) (he32 : e ≠ EPIPE) :
    (eco_socket_send fd data flags (KRes.fail EPIPE :: tr)).1 =
      some (LuaRet.fail ErrVal.closed)
  ∧ (eco_socket_send fd data flags (KRes.fail e :: tr)).1 =
      some (LuaRet.fail (ErrVal.msg e))
  ∧ (eco_socket_sendto_common fd data addr addrlen flags (KRes.fail EPIPE :: tr)).1 =
      some (LuaRet.fail (ErrVal.msg EPIPE))
  ∧ ErrVal.closed ≠ ErrVal.msg e
  ∧ ErrVal.closed ≠ ErrVal.num e := by
  refine ⟨?_, ?_, ?_, by simp, by simp⟩
  · rw [eco_socket_send, eintr_loop_fail _ _ _ EPIPE (by decide)]
    simp
  · rw [eco_socket_send, eintr_loop_fail _ _ _ e he4]
    simp [he32]
  · rw [eco_socket_sendto_common, eintr_loop_fail _ _ _ EPIPE (by decide)]

/-- Witness for C2_epipe_closed at fd 3, two data bytes, errno 111. -/
theorem C2_epipe_closed_witness :
    (111 : Nat) ≠ EINTR ∧ (111 : Nat) ≠ EPIPE ∧
    ((eco_socket_send 3 [104, 105] 0 [KRes.fail EPIPE]).1 =
        some (LuaRet.fail ErrVal.closed)
      ∧ (eco_socket_send 3 [104, 105] 0 [KRes.fail 111]).1 =
        some (LuaRet.fail (ErrVal.msg 111))
      ∧ (eco_socket_sendto_common 3 [104, 105] (encode_nl 0 0).1 12 0
          [KRes.fail EPIPE]).1 = some (LuaRet.fail (ErrVal.msg EPIPE))
      ∧ ErrVal.closed ≠ ErrVal.msg 111
      ∧ ErrVal.closed ≠ ErrVal.num 111) :=
  ⟨by decide, by decide,
   C2_epipe_closed 3 [104, 105] 0 (encode_nl 0 0).1 12 [] 111 (by decide) (by decide)⟩

/-- Claim C5, counterexample: a recv failing with errno 111 (ECONNREFUSED)
surfaces the `strerror` message value, which is not the raw error number
pushed as an integer. -/
theorem C5_counterexample :
    (eco_socket_recv 3 16 0 (KRes.ok ()) [KRes.fail 111]).1 =
      some (LuaRet.fail (ErrVal.msg 111))
  ∧ ErrVal.msg 111 ≠ ErrVal.num 111 := by
  decide

/-- Claim C5 (amended): a non-EINTR syscall failure is always surfaced,
never swallowed, and always carries the failing errno, in one of two forms:
socket, bind, listen, connect and accept push the raw errno integer (and the
`error` pseudo-option returns the pending errno as its integer value when
its own query fails), while send, sendto, recv, recvfrom and the option
get/set handlers push the platform strerror message derived from that errno
rather than the raw number; the sole remapping is send's normalization of
EPIPE to the string `"closed"`. -/
theorem C5_errno_surfaced
    (domain stype protocol fd lfd n backlog flags addrlen : Nat)
    (addr : Sockaddr) (data : List Nat)
    (tr : List (KRes (List Nat))) (tr2 : List (KRes (List Nat × Sockaddr × Nat)))
    (tra : List (KRes (Nat × Sockaddr × Nat))) (trs : List (KRes Nat))
    (e : Nat) (he : e ≠ EINTR) (hp : e ≠ EPIPE) (hn : 1 ≤ n) :
    (eco_socket_socket domain stype protocol (KRes.fail e)).1 =
      LuaRet.fail (ErrVal.num e)
  ∧ (eco_socket_bind_common fd addr addrlen (KRes.fail e)).1 =
      LuaRet.fail (ErrVal.num e)
  ∧ (eco_socket_listen fd backlog (KRes.fail e)).1 = LuaRet.fail (ErrVal.num e)
  ∧ (eco_socket_connect_common fd addr addrlen (KRes.fail e)).1 =
      LuaRet.fail (ErrVal.num e)
  ∧ (eco_socket_accept lfd (KRes.fail e :: tra)).1 =
      some (LuaRet.fail (ErrVal.num e))
  ∧ (eco_socket_send fd data flags (KRes.fail e :: trs)).1 =
      some (LuaRet.fail (ErrVal.msg e))
  ∧ (eco_socket_send fd data flags (KRes.fail EPIPE :: trs)).1 =
      some (LuaRet.fail ErrVal.closed)
  ∧ (eco_socket_sendto_common fd data addr addrlen flags (KRes.fail e :: trs)).1 =
      some (LuaRet.fail (ErrVal.msg e))
  ∧ (eco_socket_recv fd n flags (KRes.ok ()) (KRes.fail e :: tr)).1 =
      some (LuaRet.fail (ErrVal.msg e))
  ∧ (eco_socket_recvfrom fd n flags (KRes.ok ()) (KRes.fail e :: tr2)).1 =
      some (LuaRet.fail (ErrVal.msg e))
  ∧ (opt_getboolean fd 1 2 (KRes.fail e)).1 = LuaRet.fail (ErrVal.msg e)
  ∧ (opt_set fd 1 2 (KRes.fail e)).1 = LuaRet.fail (ErrVal.msg e)
  ∧ (opt_get_error fd (KRes.fail e)).1 = LuaRet.ok (OptValue.i e) := by
  have hn2 : ¬ n < 1 := by omega
  refine ⟨rfl, rfl, rfl, rfl, ?_, ?_, ?_, ?_, ?_, ?_, rfl, rfl, rfl⟩
  · simp only [eco_socket_accept]
    rw [eintr_loop_fail _ _ _ e he]
  · simp only [eco_socket_send]
    rw [eintr_loop_fail _ _ _ e he]
    simp [hp]
  · simp only [eco_socket_send]
    rw [eintr_loop_fail _ _ _ EPIPE (by decide)]
    simp
  · simp only [eco_socket_sendto_common]
    rw [eintr_loop_fail _ _ _ e he]
  · unfold eco_socket_recv
    rw [if_neg hn2, eintr_loop_fail _ _ _ e he]
  · unfold eco_socket_recvfrom
    rw [if_neg hn2, eintr_loop_fail _ _ _ e he]

/-- Witness for C5_errno_surfaced at errno 111 (ECONNREFUSED), buffer
length 16. -/
theorem C5_errno_surfaced_witness :
    (111 : Nat) ≠ EINTR ∧ (111 : Nat) ≠ EPIPE ∧ (1 : Nat) ≤ 16 ∧
    ((eco_socket_socket 2 1 0 (KRes.fail 111)).1 = LuaRet.fail (ErrVal.num 111)
      ∧ (eco_socket_bind_common 3 (encode_nl 0 0).1 12 (KRes.fail 111)).1 =
        LuaRet.fail (ErrVal.num 111)
      ∧ (eco_socket_listen 3 128 (KRes.fail 111)).1 = LuaRet.fail (ErrVal.num 111)
      ∧ (eco_socket_connect_common 3 (encode_nl 0 0).1 12 (KRes.fail 111)).1 =
        LuaRet.fail (ErrVal.num 111)
      ∧ (eco_socket_accept 4 [KRes.fail 111]).1 =
        some (LuaRet.fail (ErrVal.num 111))
      ∧ (eco_socket_send 3 [104, 105] 0 [KRes.fail 111]).1 =
        some (LuaRet.fail (ErrVal.msg 111))
      ∧ (eco_socket_send 3 [104, 105] 0 [KRes.fail EPIPE]).1 =
        some (LuaRet.fail ErrVal.closed)
      ∧ (eco_socket_sendto_common 3 [104, 105] (encode_nl 0 0).1 12 0
          [KRes.fail 111]).1 = some (LuaRet.fail (ErrVal.msg 111))
      ∧ (eco_socket_recv 3 16 0 (KRes.ok ()) [KRes.fail 111]).1 =
        some (LuaRet.fail (ErrVal.msg 111))
      ∧ (eco_socket_recvfrom 3 16 0 (KRes.ok ()) [KRes.fail 111]).1 =
        some (LuaRet.fail (ErrVal.msg 111))
      ∧ (opt_getboolean 3 1 2 (KRes.fail 111)).1 = LuaRet.fail (ErrVal.msg 111)
      ∧ (opt_set 3 1 2 (KRes.fail 111)).1 = LuaRet.fail (ErrVal.msg 111)
      ∧ (opt_get_error 3 (KRes.fail 111)).1 = LuaRet.ok (OptValue.i 111)) :=
  ⟨by decide, by decide, by decide,
   C5_errno_surfaced 2 1 0 3 4 16 128 0 12 (encode_nl 0 0).1 [104, 105] [] [] [] []
     111 (by decide) (by decide) (by decide)⟩

/-- Claim C6, counterexample: a connect failing with EINPROGRESS produces the
very same failure shape (`false` plus the errno integer) as a genuine error
such as ECONNREFUSED = 111 — there is no distinguished pending outcome, and
telling the two apart requires interpreting the raw error numbers. -/
theorem C6_counterexample :
    (eco_socket_connect_common 3 (encode_inet 2130706433 80).1 16
        (KRes.fail EINPROGRESS)).1 = LuaRet.fail (ErrVal.num EINPROGRESS)
  ∧ (eco_socket_connect_common 3 (encode_inet 2130706433 80).1 16
        (KRes.fail 111)).1 = LuaRet.fail (ErrVal.num 111) := by
  decide

/-- Claim C6 (amended): the in-progress condition of a non-blocking connect is
surfaced as the generic failure pair carrying errno EINPROGRESS verbatim, the
same shape as every genuine connect error; the caller can distinguish the
pending state only by comparing that raw error number. -/
theorem C6_connect_pending (fd : Nat) (addr : Sockaddr) (addrlen e : Nat)
    (he : e ≠ EINPROGRESS) :
    (eco_socket_connect_common fd addr addrlen (KRes.fail EINPROGRESS)).1 =
      LuaRet.fail (ErrVal.num EINPROGRESS)
  ∧ (eco_socket_connect_common fd addr addrlen (KRes.fail e)).1 =
      LuaRet.fail (ErrVal.num e)
  ∧ ErrVal.num EINPROGRESS ≠ ErrVal.num e := by
  refine ⟨rfl, rfl, fun hcontra => he ?_⟩
  simpa using hcontra.symm

/-- Witness for C6_connect_pending at errno 111. -/
theorem C6_connect_pending_witness :
    (111 : Nat) ≠ EINPROGRESS ∧
    ((eco_socket_connect_common 3 (encode_inet 2130706433 80).1 16
        (KRes.fail EINPROGRESS)).1 = LuaRet.fail (ErrVal.num EINPROGRESS)
      ∧ (eco_socket_connect_common 3 (encode_inet 2130706433 80).1 16
        (KRes.fail 111)).1 = LuaRet.fail (ErrVal.num 111)
      ∧ ErrVal.num EINPROGRESS ≠ ErrVal.num 111) :=
  ⟨by decide, C6_connect_pending 3 (encode_inet 2130706433 80).1 16 111 (by decide)⟩

/-- Claim C3: `socket` is issued exactly once with `SOCK_NONBLOCK` (bit 11)
and `SOCK_CLOEXEC` (bit 19) or-ed into the type argument of that very call,
and every syscall `accept` ever issues is `accept4` with both flags in its
flags argument — the traces contain no separate later call (in particular no
`fcntl`). -/
theorem C3_flags_atomic :
    (∀ domain stype protocol k,
      (eco_socket_socket domain stype protocol k).2 =
        [Syscall.sys_socket domain (stype ||| SOCK_NONBLOCK ||| SOCK_CLOEXEC) protocol])
  ∧ (∀ stype : Nat,
      (stype ||| SOCK_NONBLOCK ||| SOCK_CLOEXEC).testBit 11 = true ∧
      (stype ||| SOCK_NONBLOCK ||| SOCK_CLOEXEC).testBit 19 = true)
  ∧ (∀ lfd tr,
      ((eco_socket_accept lfd tr).2.all
        (fun c => c == Syscall.sys_accept4 lfd accept4_flags)) = true)
  ∧ accept4_flags.testBit 11 = true ∧ accept4_flags.testBit 19 = true := by
  have hnb : Nat.testBit SOCK_NONBLOCK 11 = true := by decide
  have hce : Nat.testBit SOCK_CLOEXEC 19 = true := by decide
  refine ⟨fun _ _ _ k => ?_, fun stype => ⟨?_, ?_⟩, fun lfd tr => ?_, by decide, by decide⟩
  · cases k <;> rfl
  · simp [Nat.testBit_or, hnb]
  · simp [Nat.testBit_or, hce]
  · rw [List.all_eq_true]
    intro c hc
    simp only [eco_socket_accept] at hc
    have := eintr_loop_calls _ _ _ tr c hc
    simpa using this

/-- Claim C4: for accept, send, receive, send_to and receive_from, any number
of EINTR failures at the head of the kernel trace is retried transparently —
the result is that of the remaining trace — and no result ever carries EINTR
as its error value. -/
theorem C4_eintr_retry :
    (∀ lfd k tr,
      (eco_socket_accept lfd (List.replicate k (KRes.fail EINTR) ++ tr)).1 =
        (eco_socket_accept lfd tr).1)
  ∧ (∀ fd data flags k tr,
      (eco_socket_send fd data flags (List.replicate k (KRes.fail EINTR) ++ tr)).1 =
        (eco_socket_send fd data flags tr).1)
  ∧ (∀ fd n flags malloc k tr,
      (eco_socket_recv fd n flags malloc (List.replicate k (KRes.fail EINTR) ++ tr)).1 =
        (eco_socket_recv fd n flags malloc tr).1)
  ∧ (∀ fd data addr addrlen flags k tr,
      (eco_socket_sendto_common fd data addr addrlen flags
        (List.replicate k (KRes.fail EINTR) ++ tr)).1 =
        (eco_socket_sendto_common fd data addr addrlen flags tr).1)
  ∧ (∀ fd n flags malloc k tr,
      (eco_socket_recvfrom fd n flags malloc (List.replicate k (KRes.fail EINTR) ++ tr)).1 =
        (eco_socket_recvfrom fd n flags malloc tr).1)
  ∧ (∀ lfd tr r, (eco_socket_accept lfd tr).1 = some r →
      r ≠ LuaRet.fail (ErrVal.num EINTR))
  ∧ (∀ fd data flags tr r, (eco_socket_send fd data flags tr).1 = some r →
      r ≠ LuaRet.fail (ErrVal.msg EINTR) ∧ r ≠ LuaRet.fail (ErrVal.num EINTR))
  ∧ (∀ fd n flags tr r, (eco_socket_recv fd n flags (KRes.ok ()) tr).1 = some r →
      r ≠ LuaRet.fail (ErrVal.msg EINTR))
  ∧ (∀ fd data addr addrlen flags tr r,
      (eco_socket_sendto_common fd data addr addrlen flags tr).1 = some r →
      r ≠ LuaRet.fail (ErrVal.msg EINTR))
  ∧ (∀ fd n flags tr r, (eco_socket_recvfrom fd n flags (KRes.ok ()) tr).1 = some r →
      r ≠ LuaRet.fail (ErrVal.msg EINTR)) := by
  refine ⟨fun lfd k tr => ?_, fun fd data flags k tr => ?_, fun fd n flags malloc k tr => ?_,
    fun fd data addr addrlen flags k tr => ?_, fun fd n flags malloc k tr => ?_,
    fun lfd tr r h => ?_, fun fd data flags tr r h => ?_, fun fd n flags tr r h => ?_,
    fun fd data addr addrlen flags tr r h => ?_, fun fd n flags tr r h => ?_⟩
  · exact eintr_loop_skip_many _ _ _ k tr
  · exact eintr_loop_skip_many _ _ _ k tr
  · unfold eco_socket_recv
    by_cases hn : n < 1
    · rw [if_pos hn, if_pos hn]
    · rw [if_neg hn, if_neg hn]
      cases malloc with
      | fail e => rfl
      | ok u => exact eintr_loop_skip_many _ _ _ k tr
  · exact eintr_loop_skip_many _ _ _ k tr
  · unfold eco_socket_recvfrom
    by_cases hn : n < 1
    · rw [if_pos hn, if_pos hn]
    · rw [if_neg hn, if_neg hn]
      cases malloc with
      | fail e => rfl
      | ok u => exact eintr_loop_skip_many _ _ _ k tr
  · simp only [eco_socket_accept] at h
    rcases eintr_loop_result _ _ _ tr r h with ⟨v, rfl⟩ | ⟨e, he, rfl⟩
    · simp
    · simp only [ne_eq, LuaRet.fail.injEq, ErrVal.num.injEq]
      exact he
  · simp only [eco_socket_send] at h
    rcases eintr_loop_result _ _ _ tr r h with ⟨v, rfl⟩ | ⟨e, he, rfl⟩
    · exact ⟨by simp, by simp⟩
    · by_cases hp : e = EPIPE
      · subst hp
        exact ⟨by simp, by simp⟩
      · rw [if_neg hp]
        refine ⟨?_, by simp⟩
        simp only [ne_eq, LuaRet.fail.injEq, ErrVal.msg.injEq]
        exact he
  · rw [eco_socket_recv] at h
    by_cases hn : n < 1
    · rw [if_pos hn] at h
      have hr : r = LuaRet.argError "must be greater than 0" := by
        simpa using h.symm
      subst hr
      simp
    · rw [if_neg hn] at h
      rcases eintr_loop_result _ _ _ tr r h with ⟨v, rfl⟩ | ⟨e, he, rfl⟩
      · simp
      · simp only [ne_eq, LuaRet.fail.injEq, ErrVal.msg.injEq]
        exact he
  · simp only [eco_socket_sendto_common] at h
    rcases eintr_loop_result _ _ _ tr r h with ⟨v, rfl⟩ | ⟨e, he, rfl⟩
    · simp
    · simp only [ne_eq, LuaRet.fail.injEq, ErrVal.msg.injEq]
      exact he
  · rw [eco_socket_recvfrom] at h
    by_cases hn : n < 1
    · rw [if_pos hn] at h
      have hr : r = LuaRet.argError "must be greater than 0" := by
        simpa using h.symm
      subst hr
      simp
    · rw [if_neg hn] at h
      rcases eintr_loop_result _ _ _ tr r h with ⟨v, rfl⟩ | ⟨e, he, rfl⟩
      · simp
      · simp only [ne_eq, LuaRet.fail.injEq, ErrVal.msg.injEq]
        exact he

/-- Witness for C4_eintr_retry: two EINTR results before an errno-9 failure
on accept are transparently retried, and the surfaced error is not EINTR. -/
theorem C4_eintr_retry_witness :
    ((eco_socket_accept 3 (List.replicate 2 (KRes.fail EINTR) ++ [KRes.fail 9])).1 =
      (eco_socket_accept 3 [KRes.fail 9]).1)
  ∧ ((eco_socket_accept 3 [KRes.fail 9]).1 = some (LuaRet.fail (ErrVal.num 9)))
  ∧ (LuaRet.fail (ErrVal.num 9) : LuaRet (Nat × AddrTable)) ≠
      LuaRet.fail (ErrVal.num EINTR) :=
  ⟨C4_eintr_retry.1 3 2 [KRes.fail 9], by decide,
   C4_eintr_retry.2.2.2.2.2.1 3 [KRes.fail 9] (LuaRet.fail (ErrVal.num 9)) (by decide)⟩

/-- Claim C8: an option name absent from the relevant registry table makes
both `getoption` and `setoption` raise the unsupported-option argument error,
which carries the name truncated to 35 bytes, with an empty syscall trace;
the scan compares names by exact string equality, so `"Reuseaddr"` (differing
from the registered `"reuseaddr"` only in case) is rejected while
`"reuseaddr"` dispatches to its handler and never raises that error. -/
theorem C8_unsupported_option (fd : Nat) (oname : String) (v : LuaValue)
    (kg : KRes Int) (ks : KRes Unit)
    (hg : ∀ p ∈ optget, p.1 ≠ oname) (hs : ∀ p ∈ optset, p.1 ≠ oname) :
    eco_socket_getoption fd oname kg =
      (.argError (unsupported_option_msg oname), [])
  ∧ eco_socket_setoption fd oname v ks =
      (.argError (unsupported_option_msg oname), [])
  ∧ unsupported_option_msg oname =
      "unsupported option \x27" ++ oname.take 35 ++ "\x27"
  ∧ eco_socket_getoption fd "Reuseaddr" kg =
      (.argError (unsupported_option_msg "Reuseaddr"), [])
  ∧ eco_socket_setoption fd "Reuseaddr" v ks =
      (.argError (unsupported_option_msg "Reuseaddr"), [])
  ∧ (eco_socket_getoption fd "reuseaddr" kg).1 ≠
      LuaRet.argError (unsupported_option_msg "reuseaddr") := by
  have hfg : optget.find? (fun p => p.1 == oname) = none := by
    rw [List.find?_eq_none]
    intro x hx
    simpa using hg x hx
  have hfs : optset.find? (fun p => p.1 == oname) = none := by
    rw [List.find?_eq_none]
    intro x hx
    simpa using hs x hx
  refine ⟨?_, ?_, rfl, rfl, rfl, ?_⟩
  · simp [eco_socket_getoption, hfg]
  · simp [eco_socket_setoption, hfs]
  · cases kg <;> simp [eco_socket_getoption, optget, opt_getboolean]

/-- Witness for C8_unsupported_option at the unknown name "linger". -/
theorem C8_unsupported_option_witness :
    (∀ p ∈ optget, p.1 ≠ "linger") ∧ (∀ p ∈ optset, p.1 ≠ "linger") ∧
    (eco_socket_getoption 3 "linger" (KRes.ok 1) =
        (.argError (unsupported_option_msg "linger"), [])
      ∧ eco_socket_setoption 3 "linger" (LuaValue.boolean true) (KRes.ok ()) =
        (.argError (unsupported_option_msg "linger"), [])
      ∧ unsupported_option_msg "linger" =
        "unsupported option \x27" ++ "linger".take 35 ++ "\x27"
      ∧ eco_socket_getoption 3 "Reuseaddr" (KRes.ok 1) =
        (.argError (unsupported_option_msg "Reuseaddr"), [])
      ∧ eco_socket_setoption 3 "Reuseaddr" (LuaValue.boolean true) (KRes.ok ()) =
        (.argError (unsupported_option_msg "Reuseaddr"), [])
      ∧ (eco_socket_getoption 3 "reuseaddr" (KRes.ok 1)).1 ≠
        LuaRet.argError (unsupported_option_msg "reuseaddr")) :=
  ⟨by decide, by decide,
   C8_unsupported_option 3 "linger" (LuaValue.boolean true) (KRes.ok 1) (KRes.ok ())
     (by decide) (by decide)⟩

/-- Claim C9: `recv` and `recvfrom` with a zero max_length raise the
invalid-argument error with an empty syscall trace, whatever the kernel
would do; with max_length at least 1 they issue the syscall carrying exactly
that buffer length and return exactly the bytes the kernel read — possibly
fewer than requested, possibly zero — and for `recvfrom` the source address
only when the kernel-reported address length is non-zero. -/
theorem C9_recv_length (fd n flags : Nat) (malloc : KRes Unit)
    (tr : List (KRes (List Nat))) (tr2 : List (KRes (List Nat × Sockaddr × Nat)))
    (data : List Nat) (src : Sockaddr) (alen : Nat) (hn : 1 ≤ n) :
    eco_socket_recv fd 0 flags malloc tr =
      (some (.argError "must be greater than 0"), [])
  ∧ eco_socket_recvfrom fd 0 flags malloc tr2 =
      (some (.argError "must be greater than 0"), [])
  ∧ eco_socket_recv fd n flags (KRes.ok ()) (KRes.ok data :: tr) =
      (some (.ok data), [Syscall.sys_recv fd n flags])
  ∧ eco_socket_recvfrom fd n flags (KRes.ok ()) (KRes.ok (data, src, alen) :: tr2) =
      (some (.ok (data, if alen ≠ 0 then some (push_socket_addr src alen) else none)),
       [Syscall.sys_recvfrom fd n flags]) := by
  have hn2 : ¬ n < 1 := by omega
  refine ⟨?_, ?_, ?_, ?_⟩
  · simp [eco_socket_recv]
  · simp [eco_socket_recvfrom]
  · simp [eco_socket_recv, hn2, eintr_loop]
  · simp [eco_socket_recvfrom, hn2, eintr_loop]

/-- Witness for C9_recv_length: n = 4, a kernel delivering 2 bytes and a
12-byte netlink source address. -/
theorem C9_recv_length_witness :
    (1 : Nat) ≤ 4 ∧
    (eco_socket_recv 3 0 0 (KRes.ok ()) [] =
        (some (.argError "must be greater than 0"), [])
      ∧ eco_socket_recvfrom 3 0 0 (KRes.ok ()) [] =
        (some (.argError "must be greater than 0"), [])
      ∧ eco_socket_recv 3 4 0 (KRes.ok ()) [KRes.ok [104, 105]] =
        (some (.ok [104, 105]), [Syscall.sys_recv 3 4 0])
      ∧ eco_socket_recvfrom 3 4 0 (KRes.ok ())
          [KRes.ok ([104, 105], Sockaddr.nl 7 0, 12)] =
        (some (.ok ([104, 105],
          if (12 : Nat) ≠ 0 then some (push_socket_addr (Sockaddr.nl 7 0) 12) else none)),
         [Syscall.sys_recvfrom 3 4 0])) :=
  ⟨by decide,
   C9_recv_length 3 4 0 (KRes.ok ()) [] [] [104, 105] (Sockaddr.nl 7 0) 12 (by decide)⟩

/-- Claim C10: when the platform lookup fails, `if_indextoname` returns the
empty string (a present string value, not an absence marker), while
`if_nametoindex` maps the failure index 0 of its platform lookup to `none`
(absence) — the two directions are asymmetric. -/
theorem C10_ifindex_asymmetry (platI : Nat → Option String) (platN : String → Nat)
    (index : Nat) (ifname : String)
    (hI : platI index = none) (hN : platN ifname = 0) :
    eco_socket_if_indextoname platI index = ""
  ∧ eco_socket_if_nametoindex platN ifname = none := by
  constructor
  · rw [eco_socket_if_indextoname, hI]
  · rw [eco_socket_if_nametoindex, if_pos hN]

/-- Witness for C10_ifindex_asymmetry with everywhere-failing lookups. -/
theorem C10_ifindex_asymmetry_witness :
    eco_socket_if_indextoname (fun _ => none) 7 = ""
  ∧ eco_socket_if_nametoindex (fun _ => 0) "eth9" = none :=
  C10_ifindex_asymmetry (fun _ => none) (fun _ => 0) 7 "eth9" rfl rfl

end EcoSocket
